import Mathlib

/-
Verification of the LinkedIn-AIAutoPost post-generation workflow engine.

The development shallowly embeds the Python sources:
  backend/app/services/multi_agent_service.py   (namespace MA)
  backend/src/services/ai/workflow_manager.py   (namespace WM)
  backend/app/services/workflow_service.py      (namespace App)
  backend/app/api/post_router.py                (namespace Router)
Collaborator calls (LLM responses, image providers, the LinkedIn API,
database credential lookup) are passed in as explicit environment values:
an Option result models a call that may fail, and call counts or event
traces record the externally visible side effects of a transition.
-/

namespace AutoPost

/-- Boolean infix test on lists of characters: needle occurs contiguously in
the haystack.  Used to embed the Python expression
status == "APPROVED" or "APPROVED" in status.upper(). -/
def list_has_infix (needle : List Char) : List Char → Bool
  | [] => needle.isEmpty
  | c :: t => needle.isPrefixOf (c :: t) || list_has_infix needle t

/-- ASCII uppercase mapping of one character, as Python str.upper performs
on the basic latin letters involved in the approval token. -/
def char_upper (c : Char) : Char :=
  if 97 ≤ c.toNat ∧ c.toNat ≤ 122 then Char.ofNat (c.toNat - 32) else c

/-- Embeds the Python truthiness test on an optional string: None and the
empty string are falsy, every other string is truthy. -/
def opt_str_truthy : Option String → Bool
  | none => false
  | some s => s ≠ ""

namespace MA

/-- Final post dictionary assembled by MultiAgentGeminiWorkflow._finalize_post.
The metadata sub-dictionary is flattened into the structure. -/
structure FinalPost where
  content : String
  hashtags : List String
  image_prompt : Option String
  post_type : String
  meta_research_summary : String
  meta_content_strategy : String
  meta_revision_count : Nat
  meta_seo_notes : String
  meta_agent_messages : Nat
  deriving Repr, DecidableEq

/-- Shared state across all agents (class AgentState in
multi_agent_service.py).  search_results and user_preferences are opaque to
every property proved here and are elided; the messages list is modelled by
its length, which is all _finalize_post reads from it. -/
structure AgentState where
  topic : String := ""
  post_type : String := ""
  include_image : Bool := true
  research_summary : String := ""
  key_insights : List String := []
  content_strategy : String := ""
  target_audience : String := ""
  tone_guidelines : String := ""
  content_outline : String := ""
  draft_content : String := ""
  editor_feedback : String := ""
  revised_content : String := ""
  hashtags : List String := []
  seo_notes : String := ""
  image_prompt : String := ""
  final_post : Option FinalPost := none
  revision_count : Nat := 0
  max_revisions : Nat := 2
  needs_revision : Bool := false
  error : String := ""
  messages : Nat := 0
  deriving Repr, DecidableEq

/-- Outcome of parsing one research LLM response: either the stripped JSON
body yielded the two expected fields, or json.loads raised and the raw
response text is kept (the except branch of ResearchAgent.research). -/
inductive ResearchParse where
  | parsed (summary : String) (insights : List String)
  | failure (raw : String)
  deriving Repr, DecidableEq

/-- Outcome of parsing one strategy LLM response (StrategyAgent.strategize).
In the parsed case outline is already canonicalized to a string, matching the
json.dumps branch for dict or list outlines, and strategy_json stands for
json.dumps(result). -/
inductive StrategyParse where
  | parsed (audience tone outline strategy_json : String)
  | failure (raw : String)
  deriving Repr, DecidableEq

/-- Outcome of parsing one editor LLM response (EditorAgent.edit): the three
fields recovered by result.get with their Python defaults already applied
(status defaults to APPROVED, feedback and revised_content to the empty
string), or a json.loads failure. -/
inductive EditParse where
  | parsed (status feedback revised : String)
  | failure
  deriving Repr, DecidableEq

/-- Outcome of parsing one SEO LLM response (SEOAgent.optimize). -/
inductive SeoParse where
  | parsed (hashtags : List String) (notes : String)
  | failure
  deriving Repr, DecidableEq

/-- ResearchAgent.research: parse the response as JSON; on failure keep the
raw text as the summary (or the canned sentence when the text is empty) and
no insights.  Appends one message either way. -/
def research_agent (r : ResearchParse) (s : AgentState) : AgentState :=
  match r with
  | .parsed summary insights =>
      { s with research_summary := summary, key_insights := insights,
               messages := s.messages + 1 }
  | .failure raw =>
      { s with research_summary := if raw ≠ "" then raw else "Research completed.",
               key_insights := [],
               messages := s.messages + 1 }

/-- StrategyAgent.strategize: parse the response as JSON; on failure both the
strategy and the outline fall back to the raw text (or canned sentences when
the text is empty). -/
def strategy_agent (r : StrategyParse) (s : AgentState) : AgentState :=
  match r with
  | .parsed audience tone outline strategy_json =>
      { s with target_audience := audience, tone_guidelines := tone,
               content_outline := outline, content_strategy := strategy_json,
               messages := s.messages + 1 }
  | .failure raw =>
      { s with content_strategy := if raw ≠ "" then raw else "Strategy developed.",
               content_outline := if raw ≠ "" then raw else "No outline.",
               messages := s.messages + 1 }

/-- WriterAgent.write: the response text is always accepted, trimmed. -/
def writer_write (draft : String) (s : AgentState) : AgentState :=
  { s with draft_content := draft.trim, messages := s.messages + 1 }

/-- The approval detection of EditorAgent.edit:
status == "APPROVED" or "APPROVED" in status.upper(). -/
def status_approved (status : String) : Bool :=
  status == "APPROVED" || list_has_infix "APPROVED".data (status.data.map char_upper)

/-- The revised-content length guard of EditorAgent.edit:
revised if revised and len(revised) > 50 else state.draft_content. -/
def guarded_revised (revised draft : String) : String :=
  if revised ≠ "" ∧ revised.length > 50 then revised else draft

/-- EditorAgent.edit: on a parsed response, record the feedback and either
approve (needs_revision false) or request a revision (needs_revision true and
revision_count incremented), applying the length guard to revised_content in
both branches; on any parse failure default to approved with the prior draft
and empty feedback.  Appends one message in every case. -/
def editor_edit (r : EditParse) (s : AgentState) : AgentState :=
  match r with
  | .parsed status feedback revised =>
      if status_approved status then
        { s with editor_feedback := feedback,
                 revised_content := guarded_revised revised s.draft_content,
                 needs_revision := false,
                 messages := s.messages + 1 }
      else
        { s with editor_feedback := feedback,
                 revised_content := guarded_revised revised s.draft_content,
                 needs_revision := true,
                 revision_count := s.revision_count + 1,
                 messages := s.messages + 1 }
  | .failure =>
      { s with editor_feedback := "",
               revised_content := s.draft_content,
               needs_revision := false,
               messages := s.messages + 1 }

/-- SEOAgent.optimize: parsed hashtags and notes, or the canned hashtag set
keyed by post_type on parse failure. -/
def seo_agent (r : SeoParse) (s : AgentState) : AgentState :=
  match r with
  | .parsed hashtags notes =>
      { s with hashtags := hashtags, seo_notes := notes, messages := s.messages + 1 }
  | .failure =>
      { s with hashtags :=
                 if s.post_type == "ai_news" then
                   ["AI", "ArtificialIntelligence", "Technology", "Innovation", "FutureOfWork"]
                 else
                   ["CareerGrowth", "ProfessionalDevelopment", "Leadership", "Success"],
               messages := s.messages + 1 }

/-- VisualDesignerAgent.design: when include_image is false the stage returns
the state unchanged before any LLM call; otherwise exactly one call is made
and its trimmed text becomes the image prompt.  The second component counts
the LLM calls the stage performed. -/
def visual_design (out : String) (s : AgentState) : AgentState × Nat :=
  if !s.include_image then (s, 0)
  else ({ s with image_prompt := out.trim, messages := s.messages + 1 }, 1)

/-- MultiAgentGeminiWorkflow._should_revise: route back to the writer iff the
editor requested a revision and the counter is still below the bound. -/
def should_revise (s : AgentState) : Bool :=
  s.needs_revision && decide (s.revision_count < s.max_revisions)

/-- MultiAgentGeminiWorkflow._finalize_post: assemble the final post
dictionary from the agent state; the image prompt is null when include_image
is false. -/
def finalize_post (s : AgentState) : AgentState :=
  { s with final_post := some (
      { content := s.revised_content
        hashtags := s.hashtags
        image_prompt := if s.include_image then some s.image_prompt else none
        post_type := s.post_type
        meta_research_summary := s.research_summary
        meta_content_strategy := s.content_strategy
        meta_revision_count := s.revision_count
        meta_seo_notes := s.seo_notes
        meta_agent_messages := s.messages } : FinalPost) }

/-- One LLM response per stage invocation: the write and edit stages can run
several times, so their responses are indexed by the invocation number. -/
structure PipelineOracle where
  research_out : ResearchParse
  strategy_out : StrategyParse
  writer_out : Nat → String
  editor_out : Nat → EditParse
  seo_out : SeoParse
  visual_out : String

/-- The cyclic write/edit portion of the agent graph.  The LangGraph edges
write → edit → (revise : write | continue) are unfolded with explicit fuel;
the termination theorem shows the fuel max_revisions + 1 - revision_count is
always sufficient, so the none case is never reached from it.  The result
carries the number of write invocations performed. -/
def run_edit_loop (o : PipelineOracle) : Nat → Nat → AgentState → Nat →
    Option (AgentState × Nat)
  | 0, _, _, _ => none
  | fuel + 1, n, s, writes =>
      let s1 := writer_write (o.writer_out n) s
      let s2 := editor_edit (o.editor_out n) s1
      if should_revise s2 then run_edit_loop o fuel (n + 1) s2 (writes + 1)
      else some (s2, writes + 1)

/-- The full agent graph of MultiAgentGeminiWorkflow._build_workflow:
research → strategy → (write ⇄ edit) → seo → visual → finalize.  Returns the
final state together with the number of write invocations. -/
def run_pipeline (o : PipelineOracle) (s : AgentState) : Option (AgentState × Nat) :=
  let s := research_agent o.research_out s
  let s := strategy_agent o.strategy_out s
  match run_edit_loop o (s.max_revisions - s.revision_count + 1) 0 s 0 with
  | none => none
  | some (s, writes) =>
      let s := seo_agent o.seo_out s
      let s := (visual_design o.visual_out s).1
      some (finalize_post s, writes)

/-- Initial AgentState built by MultiAgentGeminiWorkflow.generate_post. -/
def initial_agent_state (topic post_type : String) (include_image : Bool) : AgentState :=
  { topic := topic, post_type := post_type, include_image := include_image }

end MA


namespace WM

/-- LinkedInPost model of src/services/ai/gemini_client.py. -/
structure LinkedInPost where
  content : String
  hashtags : List String
  image_prompt : Option String := none
  post_type : String
  deriving Repr, DecidableEq

/-- WorkflowState of src/services/ai/workflow_manager.py.  The db_session
reference is opaque to the workflow apart from its truthiness, so only its
presence is kept. -/
structure WorkflowState where
  topic : String
  post_type : String := "ai_news"
  generated_post : Option LinkedInPost := none
  image_path : Option String := none
  include_image : Bool := true
  revision_count : Nat := 0
  max_revisions : Nat := 3
  is_approved : Bool := false
  feedback : String := ""
  error : Option String := none
  posted_to_linkedin : Bool := false
  user_id : Option String := none
  has_db_session : Bool := false
  deriving Repr, DecidableEq

/-- Credential row returned by UserService.get_credentials. -/
structure Credential where
  access_token : String
  linkedin_person_id : String
  deriving Repr, DecidableEq

/-- Externally visible events of one workflow transition, in order of
occurrence: a publish request sent to the LinkedIn API, or an assignment of
the error field. -/
inductive Event where
  | publish
  | err_set
  deriving Repr, DecidableEq

/-- Collaborator results consumed by the resume-side transitions of
workflow_manager.py: the credential lookup, the URN answers of
linkedin_api.post_image_content and post_text_content (none models a failed
request returning None), and the result of revise_linkedin_post (none models
a raised exception). -/
structure ResumeEnv where
  credential : Option Credential
  post_image_urn : Option String
  post_text_urn : Option String
  revise_result : Option LinkedInPost
  deriving Repr, DecidableEq

/-- LinkedInWorkflow._post_to_linkedin of workflow_manager.py, with its event
trace.  Paths in source order: no generated post → plain return; missing
user id or db session → error; no credential row → error; otherwise exactly
one publish call whose None answer sets the error afterwards. -/
def post_to_linkedin (env : ResumeEnv) (s : WorkflowState) :
    WorkflowState × List Event :=
  match s.generated_post with
  | none => (s, [])
  | some _ =>
      if !opt_str_truthy s.user_id || !s.has_db_session then
        ({ s with error := some "Missing User ID or Database Session for posting." },
         [.err_set])
      else
        match env.credential with
        | none =>
            ({ s with error := some "No LinkedIn credentials found for this user." },
             [.err_set])
        | some _ =>
            let urn := if opt_str_truthy s.image_path then env.post_image_urn
                       else env.post_text_urn
            match urn with
            | some _ => ({ s with posted_to_linkedin := true }, [.publish])
            | none =>
                ({ s with error := some "LinkedIn API request failed." },
                 [.publish, .err_set])

/-- LinkedInWorkflow._revise_content of workflow_manager.py: the revision
counter is incremented before the try block, then the revised post replaces
the draft and the feedback is cleared, or a raised exception sets error. -/
def revise_content (env : ResumeEnv) (s : WorkflowState) : WorkflowState :=
  let s := { s with revision_count := s.revision_count + 1 }
  match env.revise_result with
  | some post => { s with generated_post := some post, feedback := "" }
  | none => { s with error := some "Revision failed: exception" }

/-- Routes out of the human_review node in the compiled graph. -/
inductive ReviewRoute where
  | approved
  | revise
  | rejected
  deriving Repr, DecidableEq

/-- LinkedInWorkflow._check_review_outcome of workflow_manager.py: the
conditional edge of the graph, which rejects a revision request once
revision_count has reached max_revisions. -/
def check_review_outcome (s : WorkflowState) : ReviewRoute :=
  if s.is_approved then .approved
  else if s.feedback ≠ "" then
    if s.revision_count ≥ s.max_revisions then .rejected
    else .revise
  else .rejected

/-- LinkedInWorkflow.continue_workflow_with_approval of workflow_manager.py:
the stateless resume path.  It stores the decision on the state and then
calls _post_to_linkedin or _revise_content directly, without consulting
_check_review_outcome.  The second component is the event trace of the
transition. -/
def continue_workflow_with_approval (env : ResumeEnv) (s : WorkflowState)
    (approved : Bool) (feedback : String := "") : WorkflowState × List Event :=
  let s := { s with is_approved := approved, feedback := feedback }
  if approved then post_to_linkedin env s
  else if feedback ≠ "" then (revise_content env s, [])
  else (s, [])

/-- True when no publish event occurs after an error assignment in the
trace: the within-transition reading of the error-implies-no-side-effect
invariant. -/
def no_publish_after_err : List Event → Bool
  | [] => true
  | .publish :: t => no_publish_after_err t
  | .err_set :: t => !t.contains .publish && no_publish_after_err t

end WM

namespace App

/-- LinkedInPost model of the app tree (app/services/gemini_service.py is
imported by workflow_service.py; the field list matches the src-tree model
it mirrors, with an optional image prompt). -/
structure LinkedInPost where
  content : String
  hashtags : List String
  image_prompt : Option String := none
  post_type : String
  deriving Repr, DecidableEq

/-- WorkflowState of app/services/workflow_service.py.  user_preferences and
nano_banana_image_url are opaque to every property proved here and are
elided. -/
structure WorkflowState where
  topic : String := ""
  post_type : String := ""
  include_image : Bool := true
  generated_post : Option LinkedInPost := none
  image_path : String := ""
  user_feedback : String := ""
  revision_count : Nat := 0
  approved : Bool := false
  posted_to_linkedin : Bool := false
  error : String := ""
  deriving Repr, DecidableEq

/-- The multi-agent configuration established by LinkedInWorkflow.__init__:
the use_multi_agent flag after the constructor ran, and whether
multi_agent_workflow holds an instance. -/
structure WorkflowConfig where
  use_multi_agent : Bool
  has_multi_agent_workflow : Bool
  deriving Repr, DecidableEq

/-- LinkedInWorkflow.__init__ of workflow_service.py: when the multi-agent
system is requested but MultiAgentGeminiWorkflow() raises, the constructor
catches the exception and falls back to single-agent mode. -/
def workflow_init (use_multi_agent : Bool) (init_ok : Bool) : WorkflowConfig :=
  if use_multi_agent then
    if init_ok then { use_multi_agent := true, has_multi_agent_workflow := true }
    else { use_multi_agent := false, has_multi_agent_workflow := false }
  else { use_multi_agent := false, has_multi_agent_workflow := false }

/-- Collaborator results consumed by the content generation step of
workflow_service.py.  multi_result models the dictionary returned by
MultiAgentGeminiWorkflow.generate_post (none models a raised exception);
single_result models the post produced by the single-agent path through
generate_linkedin_post or generate_linkedin_post_with_search (none models a
raised exception there). -/
structure GenEnv where
  multi_result : Option LinkedInPost
  single_result : Option LinkedInPost
  deriving Repr, DecidableEq

/-- LinkedInWorkflow._generate_content_single_agent of workflow_service.py.
Both of its branches (with and without Tavily search) store the generated
post or set error from the raised exception; the env value covers either
branch. -/
def generate_content_single_agent (env : GenEnv) (s : WorkflowState) : WorkflowState :=
  match env.single_result with
  | some post => { s with generated_post := some post }
  | none => { s with error := "Content generation failed: exception" }

/-- LinkedInWorkflow._generate_content_multi_agent of workflow_service.py:
run the multi-agent workflow and convert its result; any exception is caught
and the single-agent path is run instead. -/
def generate_content_multi_agent (env : GenEnv) (s : WorkflowState) : WorkflowState :=
  match env.multi_result with
  | some post => { s with generated_post := some post }
  | none => generate_content_single_agent env s

/-- LinkedInWorkflow._generate_content of workflow_service.py: dispatch to
the multi-agent path only when it was requested and its instance exists. -/
def generate_content (cfg : WorkflowConfig) (env : GenEnv) (s : WorkflowState) :
    WorkflowState :=
  if cfg.use_multi_agent && cfg.has_multi_agent_workflow then
    generate_content_multi_agent env s
  else
    generate_content_single_agent env s

/-- The two image providers tried by _generate_image, in source order. -/
inductive Provider where
  | gemini
  | pollinations
  deriving Repr, DecidableEq

/-- Success answers of the two image providers for one request. -/
structure ImageEnv where
  gemini_success : Bool
  pollinations_success : Bool
  deriving Repr, DecidableEq

/-- The file path both providers write to, as built by _generate_image. -/
def image_file_path (s : WorkflowState) : String :=
  "generated_images/post_image_" ++ toString s.revision_count ++ ".png"

/-- LinkedInWorkflow._generate_image of workflow_service.py: try Gemini
first, fall back to Pollinations, and clear the image path when both fail.
The second component lists the providers called, in order. -/
def generate_image (env : ImageEnv) (s : WorkflowState) :
    WorkflowState × List Provider :=
  match s.generated_post with
  | none => ({ s with error := "No generated post available for image creation" }, [])
  | some _ =>
      if env.gemini_success then
        ({ s with image_path := image_file_path s }, [.gemini])
      else if env.pollinations_success then
        ({ s with image_path := image_file_path s }, [.gemini, .pollinations])
      else
        ({ s with image_path := "" }, [.gemini, .pollinations])

/-- Routes out of the await_user_approval node of the app graph. -/
inductive ApprovalRoute where
  | approved
  | needs_revision
  | rejected
  deriving Repr, DecidableEq

/-- LinkedInWorkflow._approval_decision of workflow_service.py.  Note that
the app-tree WorkflowState has no max_revisions bound at all. -/
def approval_decision (s : WorkflowState) : ApprovalRoute :=
  if s.approved then .approved
  else if s.user_feedback ≠ "" then .needs_revision
  else .rejected

/-- Result dictionary of the app-tree linkedin_api post methods. -/
structure PostResult where
  success : Bool
  error : String := ""
  deriving Repr, DecidableEq

/-- Collaborator answers consumed by the publish step of
workflow_service.py: whether linkedin_api.is_configured(), whether
os.path.exists(image_path), and the result dictionaries of the two post
methods. -/
structure PublishEnv where
  configured : Bool
  image_file_exists : Bool
  post_with_image_result : PostResult
  post_text_result : PostResult
  deriving Repr, DecidableEq

/-- LinkedInWorkflow._post_to_linkedin of workflow_service.py, with the
count of LinkedIn API publish calls made.  With no generated post every
branch dereferences state.generated_post.content and the raised exception is
caught into error before any publish call.  When the API is unconfigured the
step prints, sets posted_to_linkedin and returns without any publish call.
Otherwise exactly one publish call is made and failure is recorded in
error. -/
def app_post_to_linkedin (env : PublishEnv) (s : WorkflowState) :
    WorkflowState × Nat :=
  match s.generated_post with
  | none => ({ s with error := "LinkedIn posting failed: exception" }, 0)
  | some _ =>
      if !env.configured then
        ({ s with posted_to_linkedin := true }, 0)
      else
        let result := if s.image_path ≠ "" ∧ env.image_file_exists then
                        env.post_with_image_result
                      else env.post_text_result
        if result.success then
          ({ s with posted_to_linkedin := true }, 1)
        else
          ({ s with error := result.error }, 1)

end App

namespace Router

/-- The body of an HTTPException: status code and detail message. -/
structure HTTPError where
  status : Nat
  detail : String
  deriving Repr, DecidableEq

/-- str(HTTPException): Starlette formats it as "status: detail", which is
what the blanket except handler of the router stores as the new detail. -/
def str_of_http_error (e : HTTPError) : String :=
  toString e.status ++ ": " ++ e.detail

/-- ApprovalRequest of the post router: session id, decision, optional
feedback. -/
structure ApprovalRequest where
  session_id : String
  approved : Bool
  feedback : Option String := none
  deriving Repr, DecidableEq

/-- One entry of the in-memory workflow_sessions map: the stored state and
the user id captured at generation time.  The stored workflow instance adds
nothing observable and is elided. -/
structure Session where
  state : WM.WorkflowState
  user_id : String
  deriving Repr, DecidableEq

/-- The three JSONResponse shapes approve_post can return. -/
inductive ApproveOutcome where
  | revised (content : String)
  | posted
  | cancelled
  deriving Repr, DecidableEq

/-- workflow_sessions[session_id] = value. -/
def update_session (sessions : List (String × Session)) (id : String)
    (sess : Session) : List (String × Session) :=
  sessions.map (fun p => if p.1 == id then (p.1, sess) else p)

/-- The try-block body of approve_post in app/api/post_router.py: look up
the session (raising 404 when absent), inject user id and db session into
the state, continue the workflow, store the final state back into the
session map, raise 500 when the final state carries an error, then answer
with a revised, posted, or cancelled JSON body.  The DB persistence calls
(PostService) are excluded collaborators and are elided.  A missing
generated post in the revised branch makes the JSON body raise an attribute
error, kept abstract here.  The result carries the response or the raised
exception, the session map after the call, and the number of publish calls
made. -/
def approve_post_inner (env : WM.ResumeEnv) (sessions : List (String × Session))
    (req : ApprovalRequest) :
    Except HTTPError ApproveOutcome × List (String × Session) × Nat :=
  match sessions.lookup req.session_id with
  | none => (.error { status := 404, detail := "Session not found" }, sessions, 0)
  | some sess =>
      let current := { sess.state with user_id := some sess.user_id,
                                       has_db_session := true }
      let fb := req.feedback.getD ""
      let (final, events) := WM.continue_workflow_with_approval env current
                               req.approved fb
      let sessions := update_session sessions req.session_id
                        { sess with state := final }
      let pubs := events.count .publish
      match final.error with
      | some e => (.error { status := 500, detail := e }, sessions, pubs)
      | none =>
          if fb ≠ "" ∧ ¬req.approved then
            match final.generated_post with
            | some post => (.ok (.revised post.content), sessions, pubs)
            | none => (.error { status := 500, detail := "AttributeError" }, sessions, pubs)
          else if req.approved ∧ final.posted_to_linkedin then
            (.ok .posted, sessions, pubs)
          else
            (.ok .cancelled, sessions, pubs)

/-- approve_post of app/api/post_router.py.  The whole body sits in a
try/except Exception block whose handler re-raises every exception as
HTTPException(500, str(e)); an HTTPException raised inside the try block,
including the 404 for an unknown session, is an Exception and is therefore
caught and converted to a 500 whose detail is its string form. -/
def approve_post (env : WM.ResumeEnv) (sessions : List (String × Session))
    (req : ApprovalRequest) :
    Except HTTPError ApproveOutcome × List (String × Session) × Nat :=
  match approve_post_inner env sessions req with
  | (.error e, ss, p) =>
      (.error { status := 500, detail := str_of_http_error e }, ss, p)
  | ok => ok

end Router

namespace Inputs

/-- Sample generated post used by the concrete evaluations below. -/
def post_a : WM.LinkedInPost :=
  { content := "Draft content", hashtags := ["AI"], post_type := "ai_news" }

/-- Sample revised post returned by revise_linkedin_post in the concrete
evaluations below. -/
def post_b : WM.LinkedInPost :=
  { content := "Revised content", hashtags := ["AI"], post_type := "ai_news" }

/-- Sample credential row. -/
def cred : WM.Credential := { access_token := "tok", linkedin_person_id := "pid" }

/-- Environment in which credentials resolve, a text post succeeds with a
URN, and a revision succeeds. -/
def env_ok : WM.ResumeEnv :=
  { credential := some cred, post_image_urn := none,
    post_text_urn := some "urn123", revise_result := some post_b }

/-- A workflow state paused at the approval point, ready to publish. -/
def approvable : WM.WorkflowState :=
  { topic := "t", generated_post := some post_a,
    user_id := some "u1", has_db_session := true }

/-- A workflow state paused at the approval point whose revision counter has
already reached the bound. -/
def at_limit : WM.WorkflowState :=
  { topic := "t", generated_post := some post_a,
    revision_count := 3, max_revisions := 3 }

/-- A workflow state carrying an error from an earlier transition while all
publish prerequisites are present. -/
def errored : WM.WorkflowState :=
  { topic := "t", generated_post := some post_a,
    user_id := some "u1", has_db_session := true,
    error := some "Content generation failed: boom" }

end Inputs

namespace MA

/-- Unfolding equation for the successor-fuel case of the edit loop. -/
lemma run_edit_loop_succ (o : PipelineOracle) (fuel n w : Nat) (s : AgentState) :
    run_edit_loop o (fuel + 1) n s w =
      (if should_revise (editor_edit (o.editor_out n) (writer_write (o.writer_out n) s))
       then run_edit_loop o fuel (n + 1)
              (editor_edit (o.editor_out n) (writer_write (o.writer_out n) s)) (w + 1)
       else some (editor_edit (o.editor_out n) (writer_write (o.writer_out n) s), w + 1)) :=
  rfl

/-- The editor stage never changes the revision bound. -/
lemma editor_edit_max_revisions (r : EditParse) (s : AgentState) :
    (editor_edit r s).max_revisions = s.max_revisions := by
  cases r with
  | parsed st fb rv => simp only [editor_edit]; split <;> rfl
  | failure => rfl

/-- When the editor stage leaves needs_revision set, it has incremented the
revision counter by exactly one. -/
lemma editor_edit_needs_revision_incr (r : EditParse) (s : AgentState)
    (h : (editor_edit r s).needs_revision = true) :
    (editor_edit r s).revision_count = s.revision_count + 1 := by
  cases r with
  | parsed st fb rv =>
      revert h
      simp only [editor_edit]
      split <;> simp
  | failure => simp [editor_edit] at h

/-- The writer stage changes neither counter. -/
lemma writer_write_counters (d : String) (s : AgentState) :
    (writer_write d s).revision_count = s.revision_count ∧
    (writer_write d s).max_revisions = s.max_revisions ∧
    (writer_write d s).needs_revision = s.needs_revision :=
  ⟨rfl, rfl, rfl⟩

/-- The research stage changes neither counter. -/
lemma research_agent_counters (r : ResearchParse) (s : AgentState) :
    (research_agent r s).revision_count = s.revision_count ∧
    (research_agent r s).max_revisions = s.max_revisions := by
  cases r <;> exact ⟨rfl, rfl⟩

/-- The strategy stage changes neither counter. -/
lemma strategy_agent_counters (r : StrategyParse) (s : AgentState) :
    (strategy_agent r s).revision_count = s.revision_count ∧
    (strategy_agent r s).max_revisions = s.max_revisions := by
  cases r <;> exact ⟨rfl, rfl⟩

/-- Termination and write-count bound of the edit loop: fuel
max_revisions - revision_count + 1 always suffices, and the loop performs at
most that many write invocations beyond the accumulator. -/
lemma run_edit_loop_some (o : PipelineOracle) :
    ∀ (fuel : Nat) (s : AgentState) (n w : Nat),
      s.max_revisions - s.revision_count + 1 ≤ fuel →
      ∃ r wout, run_edit_loop o fuel n s w = some (r, wout) ∧
        wout ≤ w + (s.max_revisions - s.revision_count) + 1 := by
  intro fuel
  induction fuel with
  | zero => intro s n w h; omega
  | succ fuel ih =>
      intro s n w h
      rw [run_edit_loop_succ]
      by_cases hrev :
          should_revise (editor_edit (o.editor_out n) (writer_write (o.writer_out n) s)) = true
      · have hneeds :
            (editor_edit (o.editor_out n) (writer_write (o.writer_out n) s)).needs_revision
              = true := by
          rw [should_revise] at hrev
          exact (Bool.and_eq_true _ _ |>.mp hrev).1
        have hlt :
            (editor_edit (o.editor_out n) (writer_write (o.writer_out n) s)).revision_count
              < (editor_edit (o.editor_out n) (writer_write (o.writer_out n) s)).max_revisions := by
          rw [should_revise] at hrev
          exact of_decide_eq_true (Bool.and_eq_true _ _ |>.mp hrev).2
        have hrc := editor_edit_needs_revision_incr (o.editor_out n)
          (writer_write (o.writer_out n) s) hneeds
        have hmax := editor_edit_max_revisions (o.editor_out n)
          (writer_write (o.writer_out n) s)
        have hwrc : (writer_write (o.writer_out n) s).revision_count = s.revision_count := rfl
        have hwmax : (writer_write (o.writer_out n) s).max_revisions = s.max_revisions := rfl
        rw [hwrc] at hrc
        rw [hwmax] at hmax
        obtain ⟨r, wout, heq, hle⟩ :=
          ih (editor_edit (o.editor_out n) (writer_write (o.writer_out n) s))
            (n + 1) (w + 1) (by omega)
        refine ⟨r, wout, ?_, ?_⟩
        · rw [if_pos hrev]; exact heq
        · omega
      · refine ⟨editor_edit (o.editor_out n) (writer_write (o.writer_out n) s), w + 1, ?_, ?_⟩
        · rw [if_neg hrev]
        · omega

end MA

namespace WM

/-- The publish transition always produces one of four event traces. -/
lemma post_to_linkedin_trace_cases (env : ResumeEnv) (s : WorkflowState) :
    (post_to_linkedin env s).2 = [] ∨
    (post_to_linkedin env s).2 = [Event.err_set] ∨
    (post_to_linkedin env s).2 = [Event.publish] ∨
    (post_to_linkedin env s).2 = [Event.publish, Event.err_set] := by
  unfold post_to_linkedin
  rcases s.generated_post with _ | p
  · left; rfl
  · dsimp only
    split
    · right; left; rfl
    · rcases env.credential with _ | c
      · right; left; rfl
      · dsimp only
        rcases h : (if opt_str_truthy s.image_path then env.post_image_urn
                    else env.post_text_urn) with _ | urn
        · right; right; right; rfl
        · right; right; left; rfl

/-- Under the publish prerequisites (a generated post, a truthy user id, a
db session, and a resolving credential row) the publish transition performs
exactly one publish call and leaves those prerequisites intact. -/
lemma post_to_linkedin_publishes (env : ResumeEnv) (s : WorkflowState)
    (h1 : s.generated_post ≠ none) (h2 : opt_str_truthy s.user_id = true)
    (h3 : s.has_db_session = true) (h4 : env.credential ≠ none) :
    (post_to_linkedin env s).2.count Event.publish = 1 ∧
    (post_to_linkedin env s).1.generated_post = s.generated_post ∧
    (post_to_linkedin env s).1.user_id = s.user_id ∧
    (post_to_linkedin env s).1.has_db_session = s.has_db_session ∧
    (post_to_linkedin env s).1.image_path = s.image_path := by
  unfold post_to_linkedin
  rcases hgp : s.generated_post with _ | p
  · exact absurd hgp h1
  · rcases hcred : env.credential with _ | c
    · exact absurd hcred h4
    · simp only [h2, h3, hgp, hcred, Bool.not_true, Bool.or_self, Bool.false_or,
        Bool.or_false, if_false]
      rcases hurn : (if opt_str_truthy s.image_path then env.post_image_urn
                     else env.post_text_urn) with _ | urn
      · simp [hgp, List.count]
      · simp [hgp, List.count]

end WM

/-- C2: the AgentPipeline Edit-to-Write loop terminates for every AgentState
input: the loop routes back to Write iff needs_revision is true and
revision_count < max_revisions; whenever the edit stage leaves the loop
guard true it has incremented revision_count by exactly one; and for every
oracle (including one whose editor always answers NeedsRevision) the
pipeline completes, produces a final post, and performs at most
max_revisions - revision_count + 1 write invocations (at most
maxRevisions + 1 from the initial counter value zero). -/
theorem c2_edit_loop_terminates_bounded_writes :
    (∀ s : MA.AgentState,
        MA.should_revise s =
          (s.needs_revision && decide (s.revision_count < s.max_revisions))) ∧
    (∀ (r : MA.EditParse) (s : MA.AgentState),
        MA.should_revise (MA.editor_edit r s) = true →
          (MA.editor_edit r s).revision_count = s.revision_count + 1) ∧
    (∀ (o : MA.PipelineOracle) (s : MA.AgentState),
        ∃ r writes, MA.run_pipeline o s = some (r, writes) ∧
          r.final_post.isSome = true ∧
          writes ≤ s.max_revisions - s.revision_count + 1) := by
  refine ⟨fun s => rfl, ?_, ?_⟩
  · intro r s h
    apply MA.editor_edit_needs_revision_incr
    rw [MA.should_revise] at h
    exact (Bool.and_eq_true _ _ |>.mp h).1
  · intro o s
    obtain ⟨r, wout, heq, hle⟩ :=
      MA.run_edit_loop_some o
        ((MA.strategy_agent o.strategy_out (MA.research_agent o.research_out s)).max_revisions -
          (MA.strategy_agent o.strategy_out (MA.research_agent o.research_out s)).revision_count
            + 1)
        (MA.strategy_agent o.strategy_out (MA.research_agent o.research_out s)) 0 0
        (le_refl _)
    refine ⟨MA.finalize_post
        ((MA.visual_design o.visual_out (MA.seo_agent o.seo_out r)).1), wout, ?_, ?_, ?_⟩
    · simp only [MA.run_pipeline, heq]
    · simp [MA.finalize_post]
    · have ha := MA.research_agent_counters o.research_out s
      have hb := MA.strategy_agent_counters o.strategy_out (MA.research_agent o.research_out s)
      omega

/-- Witness for C2: the second conjunct applied to a concrete
NeedsRevision editor response on a fresh state with the default bound. -/
theorem c2_edit_loop_terminates_bounded_writes_witness :
    (MA.editor_edit (MA.EditParse.parsed "NEEDS_REVISION" "tighten the hook" "")
        ({ } : MA.AgentState)).revision_count = 0 + 1 :=
  c2_edit_loop_terminates_bounded_writes.2.1
    (MA.EditParse.parsed "NEEDS_REVISION" "tighten the hook" "")
    ({ } : MA.AgentState) (by decide)

/-- C7: an Edit-stage response that fails to parse against the expected
status, feedback, revisedContent contract is treated as Approved:
needs_revision is false, revised content is the prior draft unchanged, the
feedback is cleared, and neither the error field nor the revision counter
changes, so no failure propagates out of the stage. -/
theorem c7_edit_parse_failure_treated_as_approved :
    ∀ s : MA.AgentState,
      MA.editor_edit MA.EditParse.failure s =
        { s with editor_feedback := "", revised_content := s.draft_content,
                 needs_revision := false, messages := s.messages + 1 } ∧
      (MA.editor_edit MA.EditParse.failure s).error = s.error ∧
      (MA.editor_edit MA.EditParse.failure s).revision_count = s.revision_count :=
  fun _ => ⟨rfl, rfl, rfl⟩

/-- C8: with include_image false the Visual stage returns the state
unchanged and makes no generation call, and the final post assembled by
Finalize has a null image prompt while content, hashtags, post type, and
the metadata fields still come from the AgentState. -/
theorem c8_no_image_skips_visual_null_prompt :
    ∀ (out : String) (s : MA.AgentState), s.include_image = false →
      MA.visual_design out s = (s, 0) ∧
      (MA.finalize_post s).final_post = some (
        { content := s.revised_content
          hashtags := s.hashtags
          image_prompt := none
          post_type := s.post_type
          meta_research_summary := s.research_summary
          meta_content_strategy := s.content_strategy
          meta_revision_count := s.revision_count
          meta_seo_notes := s.seo_notes
          meta_agent_messages := s.messages } : MA.FinalPost) := by
  intro out s h
  constructor
  · simp [MA.visual_design, h]
  · simp [MA.finalize_post, h]

/-- Witness for C8: the theorem applied to a concrete no-image state. -/
theorem c8_no_image_skips_visual_null_prompt_witness :
    MA.visual_design "unused prompt" ({ include_image := false } : MA.AgentState) =
      ({ include_image := false }, 0) ∧
    (MA.finalize_post ({ include_image := false } : MA.AgentState)).final_post = some (
      { content := ""
        hashtags := []
        image_prompt := none
        post_type := ""
        meta_research_summary := ""
        meta_content_strategy := ""
        meta_revision_count := 0
        meta_seo_notes := ""
        meta_agent_messages := 0 } : MA.FinalPost) :=
  c8_no_image_skips_visual_null_prompt "unused prompt"
    ({ include_image := false } : MA.AgentState) rfl

/-- C1: concrete evaluation of the revision bound at the limit.  On a state
with revision_count = max_revisions = 3 and a revise decision, the graph
condition _check_review_outcome routes to rejected, but the resume path
continue_workflow_with_approval calls _revise_content directly: it performs
the revision and pushes revision_count to 4, strictly above max_revisions.
The app-tree _approval_decision likewise routes any feedback to revision
with no bound at all. -/
theorem c1_resume_bypasses_revision_bound :
    WM.check_review_outcome
        { Inputs.at_limit with is_approved := false, feedback := "shorten" } =
      WM.ReviewRoute.rejected ∧
    (WM.continue_workflow_with_approval Inputs.env_ok Inputs.at_limit
        false "shorten").1.revision_count = 4 ∧
    (WM.continue_workflow_with_approval Inputs.env_ok Inputs.at_limit
        false "shorten").1.generated_post = some Inputs.post_b ∧
    Inputs.at_limit.max_revisions = 3 ∧
    App.approval_decision { user_feedback := "shorten", revision_count := 99 } =
      App.ApprovalRoute.needs_revision := by
  refine ⟨rfl, rfl, rfl, rfl, rfl⟩

/-- C3 counterexample: resuming twice with the identical Approved decision
on the returned state publishes twice.  The first call publishes and marks
the state posted with no error; the second call on that returned state is
neither an InvalidTransition failure nor a no-op: it performs a second
publish call. -/
theorem c3_counterexample_second_resume_republishes :
    (WM.continue_workflow_with_approval Inputs.env_ok Inputs.approvable
        true "").1.posted_to_linkedin = true ∧
    (WM.continue_workflow_with_approval Inputs.env_ok Inputs.approvable
        true "").1.error = none ∧
    (WM.continue_workflow_with_approval Inputs.env_ok Inputs.approvable
        true "").2.count WM.Event.publish = 1 ∧
    (WM.continue_workflow_with_approval Inputs.env_ok
        (WM.continue_workflow_with_approval Inputs.env_ok Inputs.approvable
          true "").1 true "").2.count WM.Event.publish = 1 := by
  refine ⟨rfl, rfl, rfl, rfl⟩

/-- C3 amended: an Approved resume is re-entrant, not idempotent.  Whenever
the state holds a generated post, a truthy user id and a db session, and
the credential lookup resolves, every resume with an Approved decision
performs exactly one publish call — the publish step never consults
posted_to_linkedin or a terminal phase — so two identical Approved resumes
on the same returned state perform two publish calls. -/
theorem c3_amended_approved_resume_always_publishes :
    ∀ (env : WM.ResumeEnv) (s : WM.WorkflowState),
      s.generated_post ≠ none →
      opt_str_truthy s.user_id = true →
      s.has_db_session = true →
      env.credential ≠ none →
      (WM.continue_workflow_with_approval env s true "").2.count
          WM.Event.publish = 1 ∧
      (WM.continue_workflow_with_approval env
          (WM.continue_workflow_with_approval env s true "").1
          true "").2.count WM.Event.publish = 1 := by
  intro env s h1 h2 h3 h4
  have step1 := WM.post_to_linkedin_publishes env
    { s with is_approved := true, feedback := "" } h1 h2 h3 h4
  have hfirst : WM.continue_workflow_with_approval env s true "" =
      WM.post_to_linkedin env { s with is_approved := true, feedback := "" } := rfl
  refine ⟨by rw [hfirst]; exact step1.1, ?_⟩
  obtain ⟨hc, hgp, huid, hdb, hip⟩ := step1
  have step2 := WM.post_to_linkedin_publishes env
    { (WM.post_to_linkedin env { s with is_approved := true, feedback := "" }).1 with
        is_approved := true, feedback := "" }
    (by simpa [hgp] using h1) (by simpa [huid] using h2)
    (by simpa [hdb] using h3) h4
  rw [hfirst]
  exact step2.1

/-- Witness for C3 amended: the theorem applied to the concrete environment
and approvable state of the counterexample run. -/
theorem c3_amended_approved_resume_always_publishes_witness :
    (WM.continue_workflow_with_approval Inputs.env_ok Inputs.approvable
        true "").2.count WM.Event.publish = 1 ∧
    (WM.continue_workflow_with_approval Inputs.env_ok
        (WM.continue_workflow_with_approval Inputs.env_ok Inputs.approvable
          true "").1 true "").2.count WM.Event.publish = 1 :=
  c3_amended_approved_resume_always_publishes Inputs.env_ok Inputs.approvable
    (by decide) (by decide) (by decide) (by decide)

/-- C4 counterexample: a workflow state whose error field is already set
still triggers a publish call when resumed with an Approved decision — the
publish transition never consults a pre-existing error, refuting the claim
read over every state in which error is set. -/
theorem c4_counterexample_error_state_still_publishes :
    Inputs.errored.error = some "Content generation failed: boom" ∧
    (WM.continue_workflow_with_approval Inputs.env_ok Inputs.errored
        true "").2.count WM.Event.publish = 1 := by
  refine ⟨rfl, rfl⟩

/-- C4 amended: the guarantee that holds is per transition, not per state:
in every resume transition, once the transition itself sets the error field
no publish call follows within that transition, and at most one publish
call is made per transition.  A pre-existing error on the input state,
however, does not prevent the publish call. -/
theorem c4_amended_no_publish_after_error_set :
    ∀ (env : WM.ResumeEnv) (s : WM.WorkflowState) (approved : Bool) (fb : String),
      WM.no_publish_after_err
          (WM.continue_workflow_with_approval env s approved fb).2 = true ∧
      (WM.continue_workflow_with_approval env s approved fb).2.count
          WM.Event.publish ≤ 1 := by
  intro env s approved fb
  cases approved with
  | false =>
      by_cases hfb : fb = "" <;>
        simp [WM.continue_workflow_with_approval, hfb, WM.no_publish_after_err]
  | true =>
      have hres : WM.continue_workflow_with_approval env s true fb =
          WM.post_to_linkedin env { s with is_approved := true, feedback := fb } := rfl
      rw [hres]
      obtain h | h | h | h := WM.post_to_linkedin_trace_cases env
        { s with is_approved := true, feedback := fb } <;> rw [h] <;> exact (by decide)

/-- C5: when the multi-agent variant is selected but fails, content
generation falls back to the single-shot generator without propagating the
failure.  If initialization fails the constructor downgrades to single-agent
mode; if generation raises, the multi-agent path runs the single-agent path
instead; and with a working single-agent generator the workflow still
obtains a draft with no error recorded. -/
theorem c5_multi_agent_failure_falls_back :
    (∀ (env : App.GenEnv) (s : App.WorkflowState),
        App.generate_content (App.workflow_init true false) env s =
          App.generate_content_single_agent env s) ∧
    (∀ (env : App.GenEnv) (s : App.WorkflowState),
        env.multi_result = none →
        App.generate_content (App.workflow_init true true) env s =
          App.generate_content_single_agent env s) ∧
    (∀ (env : App.GenEnv) (s : App.WorkflowState) (post : App.LinkedInPost),
        env.multi_result = none → env.single_result = some post →
        (App.generate_content (App.workflow_init true true) env s).generated_post =
            some post ∧
        (App.generate_content (App.workflow_init true true) env s).error = s.error) := by
  refine ⟨fun env s => rfl, ?_, ?_⟩
  · intro env s h
    simp [App.generate_content, App.workflow_init, App.generate_content_multi_agent, h]
  · intro env s post h1 h2
    simp [App.generate_content, App.workflow_init, App.generate_content_multi_agent,
      App.generate_content_single_agent, h1, h2]

/-- Witness for C5: with a raising multi-agent workflow and a working
single-agent generator, the concrete run stores the single-agent draft and
records no error. -/
theorem c5_multi_agent_failure_falls_back_witness :
    (App.generate_content (App.workflow_init true true)
        { multi_result := none,
          single_result := some { content := "single agent draft", hashtags := [],
                                  post_type := "ai_news" } }
        { }).generated_post =
      some { content := "single agent draft", hashtags := [], post_type := "ai_news" } ∧
    (App.generate_content (App.workflow_init true true)
        { multi_result := none,
          single_result := some { content := "single agent draft", hashtags := [],
                                  post_type := "ai_news" } }
        { }).error = "" :=
  c5_multi_agent_failure_falls_back.2.2
    { multi_result := none,
      single_result := some { content := "single agent draft", hashtags := [],
                              post_type := "ai_news" } }
    { } { content := "single agent draft", hashtags := [], post_type := "ai_news" }
    rfl rfl

/-- C6: image generation is an ordered provider fallback chain.  Gemini is
always tried first; Pollinations is tried exactly when Gemini failed, so
each provider is called at most once and the call list has no duplicates;
any success stores the generated file path; and when both providers fail the
stored image path is empty while the error field is untouched, so the
unconditional graph edge still carries the workflow to the approval
pause. -/
theorem c6_image_provider_fallback_chain :
    ∀ (env : App.ImageEnv) (s : App.WorkflowState),
      s.generated_post ≠ none →
      ((App.generate_image env s).2 =
          if env.gemini_success then [App.Provider.gemini]
          else [App.Provider.gemini, App.Provider.pollinations]) ∧
      (App.generate_image env s).2.Nodup ∧
      (env.gemini_success = true ∨ env.pollinations_success = true →
          (App.generate_image env s).1.image_path = App.image_file_path s) ∧
      (env.gemini_success = false → env.pollinations_success = false →
          (App.generate_image env s).1.image_path = "" ∧
          (App.generate_image env s).1.error = s.error) := by
  intro env s h
  rcases hgp : s.generated_post with _ | p
  · exact absurd hgp h
  · refine ⟨?_, ?_, ?_, ?_⟩
    · by_cases hg : env.gemini_success <;> by_cases hp : env.pollinations_success <;>
        simp [App.generate_image, hgp, hg, hp]
    · by_cases hg : env.gemini_success <;> by_cases hp : env.pollinations_success <;>
        simp [App.generate_image, hgp, hg, hp]
    · intro hsucc
      rcases hsucc with hg | hp
      · simp [App.generate_image, hgp, hg]
      · by_cases hg : env.gemini_success <;> simp [App.generate_image, hgp, hg, hp]
    · intro hg hp
      simp [App.generate_image, hgp, hg, hp]

/-- Witness for C6: with both providers failing on a state that has a
generated post, the stored image path is empty and the error field stays
empty. -/
theorem c6_image_provider_fallback_chain_witness :
    (App.generate_image { gemini_success := false, pollinations_success := false }
        { generated_post := some { content := "c", hashtags := [],
                                   post_type := "ai_news" } }).1.image_path = "" ∧
    (App.generate_image { gemini_success := false, pollinations_success := false }
        { generated_post := some { content := "c", hashtags := [],
                                   post_type := "ai_news" } }).1.error = "" :=
  (c6_image_provider_fallback_chain
      { gemini_success := false, pollinations_success := false }
      { generated_post := some { content := "c", hashtags := [], post_type := "ai_news" } }
      (by decide)).2.2.2 rfl rfl

/-- C9: with the LinkedIn API unconfigured, the publish step of the app
workflow performs zero publish calls yet returns the state with
posted_to_linkedin true and the error field untouched; a configured publish
whose API call succeeds returns exactly the same state (with one call), so
the two are indistinguishable at the public interface. -/
theorem c9_unconfigured_publish_simulates_success :
    ∀ (env env2 : App.PublishEnv) (s : App.WorkflowState),
      s.generated_post ≠ none →
      env.configured = false →
      App.app_post_to_linkedin env s = ({ s with posted_to_linkedin := true }, 0) ∧
      (env2.configured = true →
        (if s.image_path ≠ "" ∧ env2.image_file_exists then env2.post_with_image_result
         else env2.post_text_result).success = true →
        (App.app_post_to_linkedin env2 s).1 = (App.app_post_to_linkedin env s).1 ∧
        (App.app_post_to_linkedin env2 s).2 = 1) := by
  intro env env2 s h hconf
  rcases hgp : s.generated_post with _ | p
  · exact absurd hgp h
  · constructor
    · simp [App.app_post_to_linkedin, hgp, hconf]
    · intro hconf2 hsucc
      simp [App.app_post_to_linkedin, hgp, hconf, hconf2, hsucc]

/-- Witness for C9: concrete unconfigured and configured-success runs agree
on the returned state, and the unconfigured run makes zero publish calls. -/
theorem c9_unconfigured_publish_simulates_success_witness :
    App.app_post_to_linkedin
        { configured := false, image_file_exists := false,
          post_with_image_result := { success := false },
          post_text_result := { success := false } }
        { generated_post := some { content := "c", hashtags := [],
                                   post_type := "ai_news" } } =
      ({ generated_post := some { content := "c", hashtags := [],
                                  post_type := "ai_news" },
          posted_to_linkedin := true }, 0) ∧
    (App.app_post_to_linkedin
        { configured := true, image_file_exists := false,
          post_with_image_result := { success := false },
          post_text_result := { success := true } }
        { generated_post := some { content := "c", hashtags := [],
                                   post_type := "ai_news" } }).1 =
      { generated_post := some { content := "c", hashtags := [],
                                 post_type := "ai_news" },
        posted_to_linkedin := true } := by
  have h := c9_unconfigured_publish_simulates_success
    { configured := false, image_file_exists := false,
      post_with_image_result := { success := false },
      post_text_result := { success := false } }
    { configured := true, image_file_exists := false,
      post_with_image_result := { success := false },
      post_text_result := { success := true } }
    { generated_post := some { content := "c", hashtags := [], post_type := "ai_news" } }
    (by decide) rfl
  exact ⟨h.1, by rw [(h.2 rfl (by decide)).1, h.1]⟩

/-- C10: concrete evaluation of approve-post on a session id absent from
the in-memory session map.  The handler raises HTTPException(404, Session
not found), but the blanket except Exception block of the router catches it
and re-raises HTTPException(500, str(e)), so the caller observes status 500
with detail "404: Session not found" rather than the intended 404; the
session map is unchanged and no publish call is made. -/
theorem c10_missing_session_500_no_mutation :
    Router.approve_post
        { credential := none, post_image_urn := none, post_text_urn := none,
          revise_result := none }
        [("other", { state := { topic := "t" }, user_id := "u1" })]
        { session_id := "missing", approved := true, feedback := none } =
      (Except.error { status := 500, detail := "404: Session not found" },
       [("other", { state := { topic := "t" }, user_id := "u1" })], 0) := by
  rfl

end AutoPost
